import Mathlib

/-!
Verification development for the configuration resolution engine of the
gd2gs repository (`src/gd2gs/config.py`).

The Python module is shallowly embedded: YAML values become the inductive
type `Val`, Python dicts become ordered association lists (insertion order
preserved, assignment replaces in place), and the fallible, error-logging
control flow becomes explicit state passing of the recorded-error list
together with an `Except Exc` result.  Uncaught Python exceptions
(`KeyError`, `TypeError`, ...) are modelled as `Exc` values.

The `gd2gs.logger` module is not part of the sources; its behaviour is
modelled from the specification's Diagnostics Collector contract (§4.1):
`recordError` appends a non-fatal error and continues, `recordFatal`
terminates immediately, `abortIfAnyError` terminates iff at least one
non-fatal error has been recorded.
-/

namespace Gd2gs

/-! ### Constants (from `config.py`) -/

def BUGZILLA : String := "BUGZILLA"
def API_KEY : String := "API_KEY"
def DOMAIN : String := "DOMAIN"
def URL : String := "URL"

def JIRA : String := "JIRA"
def SERVER : String := "SERVER"
def TOKEN : String := "TOKEN"

def MAX_RESULTS : String := "MAX_RESULTS"
def DEFAULT_MAX_RESULTS : Int := 100
def QUERY : String := "QUERY"

def SPREADSHEET_ID : String := "SPREADSHEET_ID"
def SHEETS : String := "SHEETS"
def NAME : String := "NAME"

def HEADER_OFFSET : String := "HEADER_OFFSET"
def DEFAULT_HEADER_OFFSET : Int := 0
def DEFAULT_COLUMNS : String := "DEFAULT_COLUMNS"
def INIT_DEFAULT_COLUMNS : Bool := false
def INHERIT_FORMULAS : String := "INHERIT_FORMULAS"
def INIT_INHERIT_FORMULAS : Bool := false
def SHEET_COLUMNS : String := "SHEET_COLUMNS"
def SOURCE : String := "SOURCE"
def FROM : String := "FROM"
def GET : String := "GET"
def CONDITION : String := "CONDITION"
def KEY : String := "KEY"
def LINK : String := "LINK"
def OPTIONAL : String := "OPTIONAL"
def DELIMITER : String := "DELIMITER"
def DEFAULT_DELIMITER : String := " "

def SHEET : String := "sheet"

def CONFIG_FILE_MISSING_INPUT : String := "input is missing in the config file"
def CONFIG_FILE_UNKNOWN_INPUT : String := "input is unknown in the config file"

def CONFIG_FILE_MISSING_BUGZILLA_API_KEY_FILE : String :=
  "Bugzilla API key file is not set in the config file"
def CONFIG_FILE_MISSING_BUGZILLA_DOMAIN : String :=
  "Bugzilla domain is not set in the config file"
def CONFIG_FILE_MISSING_BUGZILLA_URL : String :=
  "Bugzilla URL is not set in the config file"

def CONFIG_FILE_MISSING_JIRA_TOKEN : String :=
  "Jira access token is not set in the config file"
def CONFIG_FILE_MISSING_JIRA_URL : String :=
  "Jira server url is not set in the config file"

def CONFIG_FILE_MISSING_KEY : String := "missing key in the config file"
def CONFIG_FILE_MISSING_QUERY : String :=
  "query is not set in the config file for the sheet "
def CONFIG_FILE_MISSING_SHEET : String := "no sheet is set in the config file"
def CONFIG_FILE_MISSING_SPREADSHEET : String :=
  "spreadsheet_id is not set in the config file"
def CONFIG_FILE_MORE_KEYS : String :=
  "more than one key is set in the config file"
def CONFIG_FILE_WRONG_SPREADSHEET : String :=
  "spreadsheet_id must be a string in the config file"

/-! ### Values: the parsed YAML document -/

/-- A parsed YAML value, as handed to `Config.__init__` by `yaml.safe_load`.
Mappings are association lists in document order (Python dicts preserve
insertion order and, coming from YAML, have no duplicate keys). -/
inductive Val where
  | vstr (s : String)
  | vint (n : Int)
  | vbool (b : Bool)
  | vnull
  | vmap (entries : List (String × Val))
  | vseq (items : List Val)
deriving Repr

/-- Uncaught Python exceptions and the two process-terminating exits of the
logger, as outcomes of the embedded computation. `aborted` is
`log.check_error()` exiting because errors were recorded; `fatal` is
`log.fatal_error(msg)`. -/
inductive Exc where
  | aborted
  | fatal (msg : String)
  | keyError (key : String)
  | typeError
  | valueError
  | nameError
  | attributeError
deriving Repr, DecidableEq

/-- First binding of `key` in an association list (Python dict lookup). -/
def dictFind {α : Type} : List (String × α) → String → Option α
  | [], _ => none
  | (k, v) :: rest, key => if k = key then some v else dictFind rest key

/-- Python dict assignment `d[key] = val`: replace in place if the key is
present, else append (insertion order). -/
def dictInsert {α : Type} : List (String × α) → String → α → List (String × α)
  | [], key, val => [(key, val)]
  | (k, v) :: rest, key, val =>
      if k = key then (k, val) :: rest else (k, v) :: dictInsert rest key val

/-- `node[key]` / `key in node` on a mapping node (the resolvers only ever
index mapping nodes this way). -/
def Val.find? : Val → String → Option Val
  | .vmap entries, key => dictFind entries key
  | _, _ => none

/-- Python's `int(...)` coercion as used on `HEADER_OFFSET` and
`MAX_RESULTS` values. -/
def pyInt : Val → Except Exc Int
  | .vint n => .ok n
  | .vbool b => .ok (if b then 1 else 0)
  | .vstr s =>
      match s.trim.toInt? with
      | some n => .ok n
      | none => .error .valueError
  | _ => .error .typeError

/-- Is the value a Python `str` (`isinstance(x, str)`). -/
def isVstr : Val → Bool
  | .vstr _ => true
  | _ => false

/-- Truthiness of the running `key` variable (`if key:` / `if not ...key:`
in the source): `None` and the empty string are falsy. -/
def keyTruthy : Option String → Bool
  | none => false
  | some s => !s.isEmpty

/-! ### Data classes -/

/-- The `Column` data class.  `delimiter2` is not a declared field of the
dataclass: `get_source_config` creates it dynamically by attribute
assignment, so it is `none` until that assignment happens. -/
structure Column where
  data : Option Val := none
  gets : Option Val := none
  condition : Option Val := none
  optional : Option Val := none
  link : Option Val := none
  delimiter : Val := .vstr DEFAULT_DELIMITER
  delimiter2 : Option Val := none
deriving Repr

/-- The `Sheet` data class.  `header_offset` goes through `int(...)`;
`delimiter`, `default_columns` and `inherit_formulas` receive raw document
values, so they are `Val`s.  `columns` is always constructed from a dict
in `get_sheet_config`, hence a plain association list here. -/
structure Sheet where
  header_offset : Int := DEFAULT_HEADER_OFFSET
  delimiter : Val := .vstr DEFAULT_DELIMITER
  default_columns : Val := .vbool INIT_DEFAULT_COLUMNS
  inherit_formulas : Val := .vbool INIT_INHERIT_FORMULAS
  columns : List (String × Column) := []
  key : Option String := none
deriving Repr

/-! ### Diagnostics Collector (logger model) -/

/-- Modelled from the spec: `gd2gs.logger` is not among the sources; per the
Diagnostics Collector contract (§4.1), `log.error` (`recordError`) appends a
non-fatal error message and continues. -/
def logError (msg : String) (errs : List String) : List String := errs ++ [msg]

/-- Modelled from the spec: `log.check_error` (`abortIfAnyError`) terminates
the process iff at least one non-fatal error has been recorded; otherwise it
returns normally. -/
def checkError (errs : List String) : Except Exc Unit :=
  if errs.isEmpty then .ok () else .error .aborted

/-! ### Primitive accessors -/

/-- `config_data[key]`: raises `KeyError` when absent. -/
def getItem (config_data : Val) (key : String) (errs : List String) :
    List String × Except Exc Val :=
  match config_data.find? key with
  | some v => (errs, .ok v)
  | none => (errs, .error (.keyError key))

/-- `get_config` from `config.py`.  When `param` is absent the error is
recorded, then `str(config_data[param])` raises `KeyError`, which is caught
and answered with `log.check_error()`; were that to return (it cannot,
an error was just recorded), the following `log.debug` would hit the
unbound local `value_str` (`NameError`). -/
def get_config (config_data : Val) (param : String) (error_message : String)
    (errs : List String) : List String × Except Exc Val :=
  let errs :=
    if (config_data.find? param).isNone then logError error_message errs else errs
  match config_data.find? param with
  | none =>
      match checkError errs with
      | .error e => (errs, .error e)
      | .ok _ => (errs, .error .nameError)
  | some v => (errs, .ok v)

/-- `get_config_with_default` from `config.py` (never errors). -/
def get_config_with_default (config_data : Val) (param : String)
    (default_value : Val) : Val :=
  match config_data.find? param with
  | some v => v
  | none => default_value

/-- `get_input` from `config.py`.  When neither tracker key is present, the
error is recorded, then `str(config_data[None])` raises `KeyError`, caught
and answered with `log.check_error()`; were that to return, the following
`log.debug(param + ...)` would concatenate `None` with a string
(`TypeError`). -/
def get_input (config_data : Val) (error_message : String) (errs : List String) :
    List String × Except Exc (Option String) :=
  if (config_data.find? BUGZILLA).isSome then (errs, .ok (some BUGZILLA))
  else if (config_data.find? JIRA).isSome then (errs, .ok (some JIRA))
  else
    let errs := logError error_message errs
    match checkError errs with
    | .error e => (errs, .error e)
    | .ok _ => (errs, .error .typeError)

/-! ### Column resolver -/

/-- `get_source_config` from `config.py`.  Note `c_data[SOURCE]` is indexed
unconditionally: a structured column specification without a `SOURCE` entry
raises `KeyError`.  The nested delimiter is assigned to the *new* attribute
`delimiter2`, not to the `delimiter` field. -/
def get_source_config (col : Column) (c_data : Val) (errs : List String) :
    List String × Except Exc Column :=
  match c_data.find? SOURCE with
  | none => (errs, .error (.keyError SOURCE))
  | some src =>
    match src with
    | .vmap _ =>
      let col := { col with
        delimiter2 := some (match src.find? DELIMITER with
          | some d => d
          | none => col.delimiter) }
      let col := match src.find? FROM with
        | some f => { col with data := some f }
        | none => col
      let col := match src.find? GET with
        | some g => { col with gets := some g }
        | none => col
      let col := match src.find? CONDITION with
        | some c => { col with condition := some c }
        | none => col
      let col := match src.find? LINK with
        | some l => { col with link := some l }
        | none => col
      let col := match src.find? OPTIONAL with
        | some o => { col with optional := some o }
        | none => col
      (errs, .ok col)
    | _ => (errs, .ok { col with data := some src })

/-- `get_column_config` from `config.py`.  Python mutates `col` in place and
returns the (possibly updated) `key`; here the updated column is returned
alongside.  Note `key = column` runs unconditionally once the `KEY` marker
is present, after the duplicate-key error check. -/
def get_column_config (key : Option String) (column : String) (col : Column)
    (c_data : Val) (delimiter : Val) (errs : List String) :
    List String × Except Exc (Column × Option String) :=
  match c_data with
  | .vmap _ =>
    let errs :=
      if (c_data.find? KEY).isSome ∧ keyTruthy key then
        logError CONFIG_FILE_MORE_KEYS errs
      else errs
    let key := if (c_data.find? KEY).isSome then some column else key
    let col := { col with
      delimiter := match c_data.find? DELIMITER with
        | some d => d
        | none => delimiter }
    let col := match c_data.find? LINK with
      | some l => { col with link := some l }
      | none => col
    let col := match c_data.find? OPTIONAL with
      | some o => { col with optional := some o }
      | none => col
    match get_source_config col c_data errs with
    | (errs, .error e) => (errs, .error e)
    | (errs, .ok col) => (errs, .ok (col, key))
  | _ => (errs, .ok ({ col with data := some c_data }, key))

/-! ### Sheet resolver -/

/-- The copy loop `for column in spreadsheet.columns: columns[column] =
spreadsheet.columns[column]` seeding a fresh dict from the parent's
(the parent dict has no duplicate keys). -/
def copy_columns (src : List (String × Column)) : List (String × Column) :=
  src.foldl (fun acc c => dictInsert acc c.1 c.2) []

/-- The `for column, data in config_data[SHEET_COLUMNS].items()` loop of
`get_sheet_config`: each declared column is resolved from a fresh
`Column()` and the running `key` is threaded through in declaration
order. -/
def sheet_columns_loop (items : List (String × Val)) (delimiter : Val)
    (key : Option String) (columns : List (String × Column)) (errs : List String) :
    List String × Except Exc (List (String × Column) × Option String) :=
  match items with
  | [] => (errs, .ok (columns, key))
  | (column, data) :: rest =>
    match get_column_config key column {} data delimiter errs with
    | (errs, .error e) => (errs, .error e)
    | (errs, .ok (col, key)) =>
        sheet_columns_loop rest delimiter key (dictInsert columns column col) errs

/-- `get_sheet_config` from `config.py`.  The five seed variables mirror the
`if spreadsheet: ... else:` block; `int(config_data[HEADER_OFFSET])` may
raise; `.items()` on a non-mapping `SHEET_COLUMNS` raises
`AttributeError`; the final `if spreadsheet and not columns:` block reuses
the parent's delimiter, columns and key when the resolved column map ended
up empty (a `Sheet` instance is always truthy). -/
def get_sheet_config (config_data : Val) (spreadsheet : Option Sheet)
    (errs : List String) : List String × Except Exc Sheet :=
  let header_offset0 := match spreadsheet with
    | some sp => sp.header_offset
    | none => DEFAULT_HEADER_OFFSET
  let delimiter0 := match spreadsheet with
    | some sp => sp.delimiter
    | none => Val.vstr DEFAULT_DELIMITER
  let default_columns0 := match spreadsheet with
    | some sp => sp.default_columns
    | none => Val.vbool INIT_DEFAULT_COLUMNS
  let inherit_formulas0 := match spreadsheet with
    | some sp => sp.inherit_formulas
    | none => Val.vbool INIT_INHERIT_FORMULAS
  let key0 : Option String := match spreadsheet with
    | some sp => sp.key
    | none => none
  let columns0 : List (String × Column) := match spreadsheet with
    | some sp => copy_columns sp.columns
    | none => []
  let header_offsetE : Except Exc Int :=
    match config_data.find? HEADER_OFFSET with
    | some v => pyInt v
    | none => .ok header_offset0
  match header_offsetE with
  | .error e => (errs, .error e)
  | .ok header_offset =>
    -- the three `if PARAM in config_data:` overrides are present-or-seed
    -- selections, i.e. exactly `get_config_with_default`
    let delimiter := get_config_with_default config_data DELIMITER delimiter0
    let default_columns :=
      get_config_with_default config_data DEFAULT_COLUMNS default_columns0
    let inherit_formulas :=
      get_config_with_default config_data INHERIT_FORMULAS inherit_formulas0
    let colStep : List String × Except Exc (List (String × Column) × Option String) :=
      match config_data.find? SHEET_COLUMNS with
      | none => (errs, .ok (columns0, key0))
      | some (.vmap items) => sheet_columns_loop items delimiter key0 columns0 errs
      | some _ => (errs, .error .attributeError)
    match colStep with
    | (errs2, .error e) => (errs2, .error e)
    | (errs2, .ok (columns1, key1)) =>
      match spreadsheet with
      | some sp =>
        if columns1.isEmpty then
          (errs2, .ok ⟨header_offset, sp.delimiter, default_columns,
                       inherit_formulas, sp.columns, sp.key⟩)
        else
          (errs2, .ok ⟨header_offset, delimiter, default_columns,
                       inherit_formulas, columns1, key1⟩)
      | none =>
        (errs2, .ok ⟨header_offset, delimiter, default_columns,
                     inherit_formulas, columns1, key1⟩)

/-! ### Root resolver -/

/-- `Config.config_bugzilla`: the three required Bugzilla parameters, each
fetched with `get_config` from `config_data[BUGZILLA]` (evaluated afresh
for each of the three, as in the source). -/
def config_bugzilla (config_data : Val) (errs : List String) :
    List String × Except Exc (Val × Val × Val) :=
  match getItem config_data BUGZILLA errs with
  | (errs, .error e) => (errs, .error e)
  | (errs, .ok bz) =>
    match get_config bz DOMAIN CONFIG_FILE_MISSING_BUGZILLA_DOMAIN errs with
    | (errs, .error e) => (errs, .error e)
    | (errs, .ok bugzilla_domain) =>
      match getItem config_data BUGZILLA errs with
      | (errs, .error e) => (errs, .error e)
      | (errs, .ok bz) =>
        match get_config bz URL CONFIG_FILE_MISSING_BUGZILLA_URL errs with
        | (errs, .error e) => (errs, .error e)
        | (errs, .ok bugzilla_url) =>
          match getItem config_data BUGZILLA errs with
          | (errs, .error e) => (errs, .error e)
          | (errs, .ok bz) =>
            match get_config bz API_KEY CONFIG_FILE_MISSING_BUGZILLA_API_KEY_FILE errs with
            | (errs, .error e) => (errs, .error e)
            | (errs, .ok bugzilla_api_key) =>
              (errs, .ok (bugzilla_domain, bugzilla_url, bugzilla_api_key))

/-- `Config.config_jira`: server, token, and `int(...)` of the defaulted
`MAX_RESULTS`. -/
def config_jira (config_data : Val) (errs : List String) :
    List String × Except Exc (Val × Val × Int) :=
  match getItem config_data JIRA errs with
  | (errs, .error e) => (errs, .error e)
  | (errs, .ok jr) =>
    match get_config jr SERVER CONFIG_FILE_MISSING_JIRA_URL errs with
    | (errs, .error e) => (errs, .error e)
    | (errs, .ok jira_server) =>
      match getItem config_data JIRA errs with
      | (errs, .error e) => (errs, .error e)
      | (errs, .ok jr) =>
        match get_config jr TOKEN CONFIG_FILE_MISSING_JIRA_TOKEN errs with
        | (errs, .error e) => (errs, .error e)
        | (errs, .ok jira_token) =>
          match getItem config_data JIRA errs with
          | (errs, .error e) => (errs, .error e)
          | (errs, .ok jr) =>
            match pyInt (get_config_with_default jr MAX_RESULTS
                (.vint DEFAULT_MAX_RESULTS)) with
            | .error e => (errs, .error e)
            | .ok jira_max_results => (errs, .ok (jira_server, jira_token, jira_max_results))

/-- The `for sheet_item in config_data[SHEETS]:` loop of `config_gsheet`.
`name = sheet_item[NAME]` raises `KeyError` when `NAME` is absent; a
non-string name makes the eagerly evaluated error-message concatenation
`CONFIG_FILE_MISSING_QUERY + sheet_item[NAME]` raise `TypeError`.  After a
sheet resolves, a falsy key records the missing-key error naming the
sheet. -/
def sheets_loop (spreadsheet : Sheet) (items : List Val) (sheets : List String)
    (sheetMap : List (String × Sheet)) (queries : List (String × Val))
    (errs : List String) :
    List String × Except Exc (List String × List (String × Sheet) × List (String × Val)) :=
  match items with
  | [] => (errs, .ok (sheets, sheetMap, queries))
  | sheet_item :: rest =>
    match sheet_item.find? NAME with
    | none => (errs, .error (.keyError NAME))
    | some nameVal =>
      match nameVal with
      | .vstr name =>
        let sheets := sheets ++ [name]
        match get_config sheet_item QUERY (CONFIG_FILE_MISSING_QUERY ++ name) errs with
        | (errs, .error e) => (errs, .error e)
        | (errs, .ok query) =>
          let queries := dictInsert queries name query
          match get_sheet_config sheet_item (some spreadsheet) errs with
          | (errs, .error e) => (errs, .error e)
          | (errs, .ok sh) =>
            let sheetMap := dictInsert sheetMap name sh
            let errs :=
              if keyTruthy sh.key then errs
              else logError
                (CONFIG_FILE_MISSING_KEY ++ " (" ++ SHEET ++ ": " ++ name ++ ")") errs
            sheets_loop spreadsheet rest sheets sheetMap queries errs
      | _ => (errs, .error .typeError)

/-- The Google-spreadsheet part of the resolved `Config`.  The Python code
assigns `self.sheets` / `self.sheet` / `self.queries` only when `SHEETS` is
present, hence the `Option`s. -/
structure GsheetResult where
  spreadsheet_id : Val
  sheets : Option (List String)
  sheet : Option (List (String × Sheet))
  queries : Option (List (String × Val))
deriving Repr

/-- `Config.config_gsheet`: resolve `SPREADSHEET_ID` (non-string value is a
`log.fatal_error`, terminating immediately), resolve the spreadsheet-wide
defaults with no parent, then walk the `SHEETS` sequence (its absence is a
recorded error). -/
def config_gsheet (config_data : Val) (errs : List String) :
    List String × Except Exc GsheetResult :=
  match get_config config_data SPREADSHEET_ID CONFIG_FILE_MISSING_SPREADSHEET errs with
  | (errs, .error e) => (errs, .error e)
  | (errs, .ok spreadsheet_id) =>
    if !isVstr spreadsheet_id then
      (errs, .error (.fatal CONFIG_FILE_WRONG_SPREADSHEET))
    else
      match get_sheet_config config_data none errs with
      | (errs, .error e) => (errs, .error e)
      | (errs, .ok spreadsheet) =>
        match config_data.find? SHEETS with
        | some (.vseq items) =>
          match sheets_loop spreadsheet items [] [] [] errs with
          | (errs, .error e) => (errs, .error e)
          | (errs, .ok (sheets, sheetMap, queries)) =>
            (errs, .ok ⟨spreadsheet_id, some sheets, some sheetMap, some queries⟩)
        | some _ => (errs, .error .typeError)
        | none =>
          (logError CONFIG_FILE_MISSING_SHEET errs,
           .ok ⟨spreadsheet_id, none, none, none⟩)

/-- The fully resolved `Config` (tracker parameters of the branch that ran,
plus the spreadsheet part). -/
structure ConfigResult where
  source : Option String
  bugzilla : Option (Val × Val × Val)
  jira : Option (Val × Val × Int)
  gsheet : GsheetResult
deriving Repr

/-- `Config.__init__` after the document has been loaded: determine the
source, dispatch to the tracker-specific resolution (the `else` branch
would concatenate `None` with a string, `TypeError`: it is unreachable
because `get_input` never returns `None` normally), resolve the
spreadsheet part, and run the single batched `log.check_error()`. -/
def config_init (config_data : Val) (errs : List String) :
    List String × Except Exc ConfigResult :=
  match get_input config_data CONFIG_FILE_MISSING_INPUT errs with
  | (errs, .error e) => (errs, .error e)
  | (errs, .ok source) =>
    let trackerStep : List String ×
        Except Exc (Option (Val × Val × Val) × Option (Val × Val × Int)) :=
      if source = some BUGZILLA then
        match config_bugzilla config_data errs with
        | (errs, .error e) => (errs, .error e)
        | (errs, .ok bz) => (errs, .ok (some bz, none))
      else if source = some JIRA then
        match config_jira config_data errs with
        | (errs, .error e) => (errs, .error e)
        | (errs, .ok j) => (errs, .ok (none, some j))
      else
        (errs, .error .typeError)
    match trackerStep with
    | (errs, .error e) => (errs, .error e)
    | (errs, .ok (bz, j)) =>
      match config_gsheet config_data errs with
      | (errs, .error e) => (errs, .error e)
      | (errs, .ok gs) =>
        match checkError errs with
        | .error e => (errs, .error e)
        | .ok _ => (errs, .ok ⟨source, bz, j, gs⟩)

/-! ### Spec-side predicates used to state the claims -/

/-- A column specification "marked with the key marker field": a mapping
containing the `KEY` entry (non-mappings are never key-marked). -/
def isKeyMarked (v : Val) : Bool := (v.find? KEY).isSome

/-- A column specification the Column Resolver can process to completion:
a scalar, or a mapping that does contain a `SOURCE` entry (otherwise
`get_source_config` raises `KeyError`). -/
def colSpecOk (v : Val) : Bool :=
  match v with
  | .vmap m => (dictFind m SOURCE).isSome
  | _ => true

/-- Number of key-marked column specifications in a declared column map. -/
def keyCount (items : List (String × Val)) : Nat :=
  (items.filter fun p => isKeyMarked p.2).length

/-- Name of the last key-marked column in declaration order, if any. -/
def lastKeyName : List (String × Val) → Option String
  | [] => none
  | (c, v) :: rest =>
    match lastKeyName rest with
    | some n => some n
    | none => if isKeyMarked v then some c else none

/-- Number of "more than one key" errors the column loop records, starting
from the running key `key`: one for every key-marked column encountered
while the running key is truthy. -/
def keyErrsFrom (key : Option String) : List (String × Val) → Nat
  | [] => 0
  | (c, v) :: rest =>
    if isKeyMarked v then
      (if keyTruthy key then 1 else 0) + keyErrsFrom (some c) rest
    else keyErrsFrom key rest

/-- The running key after the column loop: the last key-marked column wins,
else the incoming key survives. -/
def finalKeyFrom (key : Option String) : List (String × Val) → Option String
  | [] => key
  | (c, v) :: rest =>
    if isKeyMarked v then finalKeyFrom (some c) rest else finalKeyFrom key rest

/-- The `HEADER_OFFSET` entry of a raw sheet specification, if present, is a
value `int(...)` accepts. -/
def headerOffsetOk (spec : Val) : Prop :=
  match spec.find? HEADER_OFFSET with
  | none => True
  | some v => ∃ n, pyInt v = Except.ok n

/-- The error message of the first missing required Bugzilla field, in the
order the source checks them (domain, url, api key). -/
def firstMissingBz (bz : Val) : Option String :=
  if (bz.find? DOMAIN).isNone then some CONFIG_FILE_MISSING_BUGZILLA_DOMAIN
  else if (bz.find? URL).isNone then some CONFIG_FILE_MISSING_BUGZILLA_URL
  else if (bz.find? API_KEY).isNone then some CONFIG_FILE_MISSING_BUGZILLA_API_KEY_FILE
  else none

/-! ### Association-list lemmas -/

theorem Val.find?_vmap (entries : List (String × Val)) (key : String) :
    (Val.vmap entries).find? key = dictFind entries key := rfl

theorem dictFind_dictInsert_ne {α : Type} (l : List (String × α)) (k : String)
    (v : α) (n : String) (h : n ≠ k) :
    dictFind (dictInsert l k v) n = dictFind l n := by
  induction l with
  | nil => simp [dictInsert, dictFind, Ne.symm h]
  | cons p rest ih =>
    obtain ⟨pk, pv⟩ := p
    by_cases hpk : pk = k
    · subst hpk
      simp [dictInsert, dictFind, Ne.symm h]
    · simp [dictInsert, dictFind, hpk, ih]

theorem dictFind_dictInsert_self {α : Type} (l : List (String × α)) (k : String)
    (v : α) : dictFind (dictInsert l k v) k = some v := by
  induction l with
  | nil => simp [dictInsert, dictFind]
  | cons p rest ih =>
    obtain ⟨pk, pv⟩ := p
    by_cases hpk : pk = k
    · subst hpk
      simp [dictInsert, dictFind]
    · simp [dictInsert, dictFind, hpk, ih]

theorem dictInsert_fresh {α : Type} (l : List (String × α)) (k : String) (v : α)
    (h : k ∉ l.map Prod.fst) :
    dictInsert l k v = l ++ [(k, v)] := by
  induction l with
  | nil => simp [dictInsert]
  | cons p rest ih =>
    simp only [List.map_cons, List.mem_cons] at h
    push_neg at h
    simp [dictInsert, Ne.symm h.1, ih h.2]

theorem copy_columns_aux (l : List (String × Column)) :
    ∀ acc : List (String × Column), (l.map Prod.fst).Nodup →
      (∀ k ∈ l.map Prod.fst, k ∉ acc.map Prod.fst) →
      l.foldl (fun a c => dictInsert a c.1 c.2) acc = acc ++ l := by
  induction l with
  | nil =>
    intro acc _ _
    simp
  | cons p rest ih =>
    intro acc hnd hdisj
    obtain ⟨pk, pv⟩ := p
    simp only [List.map_cons, List.nodup_cons] at hnd
    have hfresh : pk ∉ acc.map Prod.fst := hdisj pk (by simp)
    have hdisj2 : ∀ k ∈ rest.map Prod.fst, k ∉ (acc ++ [(pk, pv)]).map Prod.fst := by
      intro k hk
      simp only [List.map_append, List.mem_append]
      push_neg
      refine ⟨hdisj k (by simp [hk]), ?_⟩
      simp only [List.map_cons, List.map_nil, List.mem_singleton]
      intro hkk
      subst hkk
      exact hnd.1 hk
    rw [List.foldl_cons, dictInsert_fresh acc pk pv hfresh, ih _ hnd.2 hdisj2]
    simp

/-- Seeding a fresh dict from a duplicate-free parent dict reproduces it. -/
theorem copy_columns_eq (l : List (String × Column))
    (hnd : (l.map Prod.fst).Nodup) : copy_columns l = l := by
  simpa [copy_columns] using copy_columns_aux l [] hnd (by simp)

/-! ### Column-loop lemmas -/

/-- A column specification the resolver can finish (`colSpecOk`) resolves to
`ok`: the duplicate-key error is recorded iff the spec is key-marked while
the running key is truthy, and a key-marked spec unconditionally adopts the
column name as the new running key. -/
theorem get_column_config_ok (key : Option String) (column : String) (col : Column)
    (v : Val) (delimiter : Val) (errs : List String) (h : colSpecOk v = true) :
    ∃ col2, get_column_config key column col v delimiter errs =
      ((if isKeyMarked v ∧ keyTruthy key then errs ++ [CONFIG_FILE_MORE_KEYS] else errs),
       .ok (col2, if isKeyMarked v then some column else key)) := by
  cases v
  case vmap m =>
    simp only [colSpecOk, Option.isSome_iff_exists] at h
    obtain ⟨src, hsrc⟩ := h
    simp only [get_column_config, get_source_config, isKeyMarked, Val.find?, hsrc, logError]
    cases src <;> exact ⟨_, rfl⟩
  all_goals
    simp only [get_column_config, isKeyMarked, Val.find?, Option.isSome_none,
      Bool.false_eq_true, false_and, if_false]
    exact ⟨_, rfl⟩

/-- Master description of the declared-column loop: with every declared
specification processable, the loop succeeds, appends exactly the
duplicate-key errors described by `keyErrsFrom`, ends with the running key
described by `finalKeyFrom`, and only touches the dict entries of declared
column names. -/
theorem sheet_columns_loop_spec (items : List (String × Val)) :
    ∀ (key : Option String) (columns : List (String × Column)) (errs : List String)
      (delimiter : Val), (∀ p ∈ items, colSpecOk p.2 = true) →
      ∃ cols2,
        sheet_columns_loop items delimiter key columns errs =
          (errs ++ List.replicate (keyErrsFrom key items) CONFIG_FILE_MORE_KEYS,
           .ok (cols2, finalKeyFrom key items)) ∧
        (∀ n, n ∉ items.map Prod.fst → dictFind cols2 n = dictFind columns n) ∧
        (∀ n, n ∈ items.map Prod.fst → (dictFind cols2 n).isSome = true) := by
  induction items with
  | nil =>
    intro key columns errs delimiter _
    exact ⟨columns, by simp [sheet_columns_loop, keyErrsFrom, finalKeyFrom],
      fun n _ => rfl, fun n hn => by simp at hn⟩
  | cons p rest ih =>
    intro key columns errs delimiter hok
    obtain ⟨c, v⟩ := p
    obtain ⟨col2, hstep⟩ := get_column_config_ok key c {} v delimiter errs
      (hok (c, v) (by simp))
    obtain ⟨cols2, hloop, hlook, hmem⟩ := ih (if isKeyMarked v then some c else key)
      (dictInsert columns c col2)
      (if isKeyMarked v ∧ keyTruthy key then errs ++ [CONFIG_FILE_MORE_KEYS] else errs)
      delimiter (fun q hq => hok q (by simp [hq]))
    refine ⟨cols2, ?_, ?_, ?_⟩
    · simp only [sheet_columns_loop, hstep, hloop]
      by_cases hm : isKeyMarked v = true
      · by_cases ht : keyTruthy key = true
        · simp [keyErrsFrom, finalKeyFrom, hm, ht, List.replicate_add,
            List.append_assoc, List.replicate_one]
        · simp [keyErrsFrom, finalKeyFrom, hm, ht]
      · simp [keyErrsFrom, finalKeyFrom, hm]
    · intro n hn
      simp only [List.map_cons, List.mem_cons] at hn
      push_neg at hn
      rw [hlook n hn.2, dictFind_dictInsert_ne _ _ _ _ hn.1]
    · intro n hn
      by_cases hr : n ∈ rest.map Prod.fst
      · exact hmem n hr
      · have hnc : n = c := by
          simp only [List.map_cons, List.mem_cons] at hn
          tauto
        subst hnc
        rw [hlook n hr, dictFind_dictInsert_self]
        rfl

/-- The running key after the loop is the last key-marked column when one
exists, else the incoming key. -/
theorem finalKeyFrom_eq (items : List (String × Val)) :
    ∀ key : Option String, finalKeyFrom key items =
      match lastKeyName items with
      | some n => some n
      | none => key := by
  induction items with
  | nil =>
    intro key
    simp [finalKeyFrom, lastKeyName]
  | cons p rest ih =>
    intro key
    obtain ⟨c, v⟩ := p
    by_cases hm : isKeyMarked v = true <;>
      cases hrest : lastKeyName rest <;>
        simp [finalKeyFrom, lastKeyName, hm, ih, hrest]

/-- With a truthy running key and nonempty column names, every key-marked
column records a duplicate-key error. -/
theorem keyErrsFrom_truthy (items : List (String × Val)) :
    ∀ key : Option String, keyTruthy key = true →
      (∀ p ∈ items, p.1 ≠ "") →
      keyErrsFrom key items = keyCount items := by
  induction items with
  | nil =>
    intro key _ _
    simp [keyErrsFrom, keyCount]
  | cons p rest ih =>
    intro key hkey hnames
    obtain ⟨c, v⟩ := p
    have hc : c ≠ "" := hnames (c, v) (by simp)
    have hrest : ∀ p ∈ rest, p.1 ≠ "" := fun q hq => hnames q (by simp [hq])
    by_cases hm : isKeyMarked v = true
    · have hce : c.isEmpty = false := by
        rw [← Bool.not_eq_true, String.isEmpty_iff]
        exact hc
      have hct : keyTruthy (some c) = true := by
        simp [keyTruthy, hce]
      simp [keyErrsFrom, keyCount, hm, hkey, ih _ hct hrest, Nat.add_comm,
        List.filter_cons]
    · simp [keyErrsFrom, keyCount, hm, ih _ hkey hrest, List.filter_cons]

/-- With a falsy incoming key, the loop records one duplicate-key error per
key-marked column after the first. -/
theorem keyErrsFrom_falsy (items : List (String × Val)) :
    ∀ key : Option String, keyTruthy key = false →
      (∀ p ∈ items, p.1 ≠ "") →
      keyErrsFrom key items = keyCount items - 1 := by
  induction items with
  | nil =>
    intro key _ _
    simp [keyErrsFrom, keyCount]
  | cons p rest ih =>
    intro key hkey hnames
    obtain ⟨c, v⟩ := p
    have hc : c ≠ "" := hnames (c, v) (by simp)
    have hrest : ∀ p ∈ rest, p.1 ≠ "" := fun q hq => hnames q (by simp [hq])
    by_cases hm : isKeyMarked v = true
    · have hce : c.isEmpty = false := by
        rw [← Bool.not_eq_true, String.isEmpty_iff]
        exact hc
      have hct : keyTruthy (some c) = true := by
        simp [keyTruthy, hce]
      simp [keyErrsFrom, keyCount, hm, hkey,
        keyErrsFrom_truthy rest (some c) hct hrest, List.filter_cons]
    · simp [keyErrsFrom, keyCount, hm, ih _ hkey hrest, List.filter_cons]

/-- No key-marked column: no duplicate-key error. -/
theorem keyErrsFrom_no_marked (items : List (String × Val)) :
    ∀ key : Option String, (∀ p ∈ items, isKeyMarked p.2 = false) →
      keyErrsFrom key items = 0 := by
  induction items with
  | nil =>
    intro key _
    simp [keyErrsFrom]
  | cons p rest ih =>
    intro key h
    obtain ⟨c, v⟩ := p
    have hv : isKeyMarked v = false := h (c, v) (by simp)
    simp [keyErrsFrom, hv, ih _ (fun q hq => h q (by simp [hq]))]

/-- No key-marked column: no last key-marked column. -/
theorem lastKeyName_no_marked (items : List (String × Val))
    (h : ∀ p ∈ items, isKeyMarked p.2 = false) : lastKeyName items = none := by
  induction items with
  | nil => simp [lastKeyName]
  | cons p rest ih =>
    obtain ⟨c, v⟩ := p
    have hv : isKeyMarked v = false := h (c, v) (by simp)
    simp [lastKeyName, hv, ih (fun q hq => h q (by simp [hq]))]

/-- Without a last key-marked column there is no key-marked column at all. -/
theorem keyCount_eq_zero_of_lastKeyName_none (items : List (String × Val)) :
    lastKeyName items = none → keyCount items = 0 := by
  induction items with
  | nil =>
    intro _
    simp [keyCount]
  | cons p rest ih =>
    intro h
    obtain ⟨c, v⟩ := p
    simp only [lastKeyName] at h
    rcases hrest : lastKeyName rest with _ | nm
    · rw [hrest] at h
      by_cases hm : isKeyMarked v = true
      · simp [hm] at h
      · simp [keyCount, List.filter_cons, hm]
        have := ih hrest
        simpa [keyCount] using this
    · rw [hrest] at h
      simp at h

/-- A key-marked column exists: the last key-marked column is defined. -/
theorem lastKeyName_isSome_of_keyCount_pos (items : List (String × Val))
    (h : 1 ≤ keyCount items) : ∃ nm, lastKeyName items = some nm := by
  rcases hl : lastKeyName items with _ | nm
  · have := keyCount_eq_zero_of_lastKeyName_none items hl
    omega
  · exact ⟨nm, rfl⟩

/-! ### Claim C2 -/

def c2items : List (String × Val) :=
  [("A", .vmap [(KEY, .vbool true), (SOURCE, .vstr "a")]),
   ("B", .vmap [(KEY, .vbool true), (SOURCE, .vstr "b")])]

def c2spec : Val := .vmap [(SHEET_COLUMNS, .vmap c2items)]

/-- Claim C2, counterexample: a sheet declaring the two key-marked columns
`A` then `B` (in that order) resolves with key `"B"` — the *last*
key-marked column, not the first (`"A"`) as the claim states. -/
theorem c2_counterexample :
    get_sheet_config c2spec none [] =
      ([CONFIG_FILE_MORE_KEYS],
       .ok { header_offset := 0, delimiter := .vstr " ",
             default_columns := .vbool false, inherit_formulas := .vbool false,
             columns :=
               [("A", { data := some (.vstr "a"), delimiter := .vstr " " }),
                ("B", { data := some (.vstr "b"), delimiter := .vstr " " })],
             key := some "B" }) ∧ ("B" : String) ≠ "A" :=
  ⟨rfl, by decide⟩

/-- Claim C2 as amended: for every sheet whose raw specification declares
two or more key-marked columns (each resolvable, with nonempty names),
resolved with a falsy seeded key, resolution records one "more than one
key" error per key-marked column *after the first* (so `keyCount - 1`
errors, not always exactly one), and the key recorded on the resolved
Sheet is the *last* key-marked column in declaration order. -/
theorem c2_last_key_wins (spec : Val) (parent : Sheet)
    (items : List (String × Val)) (errs : List String)
    (hsc : spec.find? SHEET_COLUMNS = some (.vmap items))
    (hho : headerOffsetOk spec)
    (hok : ∀ p ∈ items, colSpecOk p.2 = true)
    (hnames : ∀ p ∈ items, p.1 ≠ "")
    (hkeys : 2 ≤ keyCount items)
    (hpk : keyTruthy parent.key = false)
    (hnd : (parent.columns.map Prod.fst).Nodup) :
    ∃ sh, get_sheet_config spec (some parent) errs =
      (errs ++ List.replicate (keyCount items - 1) CONFIG_FILE_MORE_KEYS, .ok sh) ∧
      sh.key = lastKeyName items := by
  have hcopy := copy_columns_eq parent.columns hnd
  obtain ⟨cols2, hloop, hlook, hmem⟩ := sheet_columns_loop_spec items parent.key
    parent.columns errs (get_config_with_default spec DELIMITER parent.delimiter) hok
  have herr := keyErrsFrom_falsy items parent.key hpk hnames
  obtain ⟨nm, hlast⟩ := lastKeyName_isSome_of_keyCount_pos items (by omega)
  have hfin : finalKeyFrom parent.key items = lastKeyName items := by
    rw [finalKeyFrom_eq, hlast]
  rw [herr, hfin] at hloop
  have hitems : items ≠ [] := by
    intro h
    subst h
    simp [keyCount] at hkeys
  have hne : cols2.isEmpty = false := by
    obtain ⟨p, hp⟩ := List.exists_mem_of_ne_nil items hitems
    have hp1 : p.1 ∈ items.map Prod.fst := by
      simp only [List.mem_map]
      exact ⟨p, hp, rfl⟩
    have hs := hmem p.1 hp1
    rw [← Bool.not_eq_true, List.isEmpty_iff]
    intro hc
    subst hc
    simp [dictFind] at hs
  unfold headerOffsetOk at hho
  rcases hHO : spec.find? HEADER_OFFSET with _ | v
  · simp only [get_sheet_config, hHO, hsc, hcopy, hloop, hne,
      Bool.false_eq_true, if_false]
    exact ⟨_, rfl, rfl⟩
  · rw [hHO] at hho
    obtain ⟨n, hn⟩ := hho
    simp only [get_sheet_config, hHO, hn, hsc, hcopy, hloop, hne,
      Bool.false_eq_true, if_false]
    exact ⟨_, rfl, rfl⟩

/-- Claim C2 witness: the amended theorem applied to the concrete
two-key-column sheet. -/
theorem c2_witness :
    ∃ sh, get_sheet_config c2spec (some {}) [] =
      ([CONFIG_FILE_MORE_KEYS], .ok sh) ∧ sh.key = some "B" := by
  obtain ⟨sh, h1, h2⟩ := c2_last_key_wins c2spec {} c2items [] rfl
    (by exact trivial) (by decide) (by decide) (by decide) rfl (by simp)
  exact ⟨sh, h1, h2⟩

/-! ### Claim C3 -/

def c3root : Val :=
  .vmap [(SHEET_COLUMNS, .vmap [("P", .vmap [(KEY, .vbool true), (SOURCE, .vstr "p")])])]

def c3parent : Sheet :=
  { header_offset := 0, delimiter := .vstr " ", default_columns := .vbool false,
    inherit_formulas := .vbool false,
    columns := [("P", { data := some (.vstr "p"), delimiter := .vstr " " })],
    key := some "P" }

def c3spec : Val :=
  .vmap [(SHEET_COLUMNS, .vmap [("C", .vmap [(SOURCE, .vstr "c")])])]

def c3resolved : Sheet :=
  { header_offset := 0, delimiter := .vstr " ", default_columns := .vbool false,
    inherit_formulas := .vbool false,
    columns := [("P", { data := some (.vstr "p"), delimiter := .vstr " " }),
                ("C", { data := some (.vstr "c"), delimiter := .vstr " " })],
    key := some "P" }

/-- Claim C3, counterexample: the spreadsheet defaults declare a key column
`P`; a sheet declaring its own column map `{C}` resolves to a Sheet that
still contains the parent column `P` (which the sheet did not declare) and
still carries the parent key `P` — so the freshly resolved columns do NOT
fully replace the seeded parent values; the resolution is a column-by-column
merge into the seeded copy. -/
theorem c3_counterexample :
    get_sheet_config c3root none [] = ([], .ok c3parent) ∧
    get_sheet_config c3spec (some c3parent) [] = ([], .ok c3resolved) ∧
    dictFind c3resolved.columns "P" =
      some { data := some (.vstr "p"), delimiter := .vstr " " } ∧
    c3resolved.key = some "P" ∧
    ("P" : String) ∉ ["C"] :=
  ⟨rfl, rfl, rfl, rfl, by decide⟩

/-- Claim C3 as amended: when a sheet declares its own column map, the
freshly resolved columns are merged into the seeded copy of the parent's
column map — every parent column not re-declared by the sheet survives
unchanged — and the key threading is seeded from the parent's key, which
therefore survives whenever no declared column carries the key marker. -/
theorem c3_parent_columns_survive (spec : Val) (parent : Sheet)
    (items : List (String × Val)) (errs : List String)
    (hsc : spec.find? SHEET_COLUMNS = some (.vmap items))
    (hho : headerOffsetOk spec)
    (hok : ∀ p ∈ items, colSpecOk p.2 = true)
    (hnk : ∀ p ∈ items, isKeyMarked p.2 = false)
    (hnd : (parent.columns.map Prod.fst).Nodup) :
    ∃ sh, get_sheet_config spec (some parent) errs = (errs, .ok sh) ∧
      sh.key = parent.key ∧
      ∀ n, n ∉ items.map Prod.fst →
        dictFind sh.columns n = dictFind parent.columns n := by
  have hcopy := copy_columns_eq parent.columns hnd
  obtain ⟨cols2, hloop, hlook, _⟩ := sheet_columns_loop_spec items parent.key
    parent.columns errs (get_config_with_default spec DELIMITER parent.delimiter) hok
  have herr : keyErrsFrom parent.key items = 0 :=
    keyErrsFrom_no_marked items parent.key hnk
  have hfin : finalKeyFrom parent.key items = parent.key := by
    rw [finalKeyFrom_eq, lastKeyName_no_marked items hnk]
  rw [herr, hfin] at hloop
  simp only [List.replicate_zero, List.append_nil] at hloop
  unfold headerOffsetOk at hho
  rcases hHO : spec.find? HEADER_OFFSET with _ | v
  · simp only [get_sheet_config, hHO, hsc, hcopy, hloop]
    split
    · exact ⟨_, rfl, rfl, fun n _ => rfl⟩
    · exact ⟨_, rfl, rfl, hlook⟩
  · rw [hHO] at hho
    obtain ⟨n, hn⟩ := hho
    simp only [get_sheet_config, hHO, hn, hsc, hcopy, hloop]
    split
    · exact ⟨_, rfl, rfl, fun n _ => rfl⟩
    · exact ⟨_, rfl, rfl, hlook⟩

/-- Claim C3 witness: the amended theorem applied to the concrete parent
with key column `P` and the sheet declaring only `C`. -/
theorem c3_witness :
    ∃ sh, get_sheet_config c3spec (some c3parent) [] = ([], .ok sh) ∧
      sh.key = some "P" ∧
      dictFind sh.columns "P" = dictFind c3parent.columns "P" := by
  obtain ⟨sh, h1, h2, h3⟩ := c3_parent_columns_survive c3spec c3parent
    [("C", .vmap [(SOURCE, .vstr "c")])] [] rfl (by exact trivial)
    (by decide) (by decide) (by simp [c3parent])
  exact ⟨sh, h1, h2, h3 "P" (by decide)⟩

/-! ### Claim C7 -/

def c7spec : Val := .vmap [(DEFAULT_COLUMNS, .vbool false)]

def c7parent : Sheet :=
  { header_offset := 0, delimiter := .vstr " ", default_columns := .vbool true,
    inherit_formulas := .vbool false,
    columns := [("P", { data := some (.vstr "p"), delimiter := .vstr " " })],
    key := some "P" }

/-- Claim C7 (confirmed): a sheet whose raw specification declares no
column map at all, resolved with a parent, ends up with exactly the
parent's columns and key; the statement quantifies over arbitrary
`DEFAULT_COLUMNS` entries of the specification and arbitrary
`default_columns` values of the parent, so the fallback is independent of
the `useDefaultColumns` flag. -/
theorem c7_no_columns_inherits_parent (spec : Val) (parent : Sheet)
    (errs : List String)
    (hsc : spec.find? SHEET_COLUMNS = none)
    (hho : headerOffsetOk spec)
    (hnd : (parent.columns.map Prod.fst).Nodup) :
    ∃ sh, get_sheet_config spec (some parent) errs = (errs, .ok sh) ∧
      sh.columns = parent.columns ∧ sh.key = parent.key := by
  have hcopy := copy_columns_eq parent.columns hnd
  unfold headerOffsetOk at hho
  rcases hHO : spec.find? HEADER_OFFSET with _ | v
  · simp only [get_sheet_config, hHO, hsc, hcopy]
    split
    · exact ⟨_, rfl, rfl, rfl⟩
    · exact ⟨_, rfl, rfl, rfl⟩
  · rw [hHO] at hho
    obtain ⟨n, hn⟩ := hho
    simp only [get_sheet_config, hHO, hn, hsc, hcopy]
    split
    · exact ⟨_, rfl, rfl, rfl⟩
    · exact ⟨_, rfl, rfl, rfl⟩

/-- Claim C7 witness: a sheet spec carrying only `DEFAULT_COLUMNS: false`
(the flag explicitly off), resolved against a parent whose flag is on,
still inherits the parent's columns and key. -/
theorem c7_witness :
    ∃ sh, get_sheet_config c7spec (some c7parent) [] = ([], .ok sh) ∧
      sh.columns = c7parent.columns ∧ sh.key = some "P" := by
  obtain ⟨sh, h1, h2, h3⟩ := c7_no_columns_inherits_parent c7spec c7parent []
    rfl (by exact trivial) (by simp [c7parent])
  exact ⟨sh, h1, h2, h3⟩

/-! ### Claim C8 -/

def c8doc : Val :=
  .vmap [(SPREADSHEET_ID, .vstr "sid"),
         (SHEETS, .vseq [.vmap [(NAME, .vstr "n"), (QUERY, .vstr "q"),
                                (DELIMITER, .vstr ",")]])]

def c8parent : Sheet :=
  { header_offset := 0, delimiter := .vstr " ", default_columns := .vbool true,
    inherit_formulas := .vbool false,
    columns := [("P", { data := some (.vstr "p"), delimiter := .vstr " " })],
    key := some "P" }

def c8sheet : Sheet :=
  { header_offset := 0, delimiter := .vstr " ", default_columns := .vbool false,
    inherit_formulas := .vbool false, columns := [], key := none }

/-- Claim C8, counterexample: the sheet `n` explicitly sets
`DELIMITER: ","`, declares no columns, and the spreadsheet defaults have an
empty column map; the `if spreadsheet and not columns:` fallback then
resets the delimiter to the parent's `" "`, so the resolved Sheet does NOT
carry the explicitly set `","`. -/
theorem c8_counterexample :
    config_gsheet c8doc [] =
      (["missing key in the config file (sheet: n)"],
       .ok { spreadsheet_id := .vstr "sid", sheets := some ["n"],
             sheet := some [("n", c8sheet)],
             queries := some [("n", .vstr "q")] }) ∧
    c8sheet.delimiter = .vstr " " ∧ (" " : String) ≠ "," :=
  ⟨rfl, rfl, by decide⟩

/-- Claim C8 as amended: explicit `HEADER_OFFSET`, `DELIMITER`,
`DEFAULT_COLUMNS` and `INHERIT_FORMULAS` entries of a raw sheet
specification override the values seeded from the parent — with the
delimiter override surviving only when the resolved column map is nonempty
(here: no declared columns but a nonempty parent column map); when the
resolved column map ends up empty under a parent, the fallback resets the
delimiter to the parent's (see the counterexample). -/
theorem c8_explicit_overrides (spec : Val) (parent : Sheet) (errs : List String)
    (hv d dc fv : Val) (n : Int)
    (hHO : spec.find? HEADER_OFFSET = some hv) (hn : pyInt hv = .ok n)
    (hD : spec.find? DELIMITER = some d)
    (hDC : spec.find? DEFAULT_COLUMNS = some dc)
    (hIF : spec.find? INHERIT_FORMULAS = some fv)
    (hsc : spec.find? SHEET_COLUMNS = none)
    (hnd : (parent.columns.map Prod.fst).Nodup)
    (hne : parent.columns ≠ []) :
    ∃ sh, get_sheet_config spec (some parent) errs = (errs, .ok sh) ∧
      sh.header_offset = n ∧ sh.delimiter = d ∧ sh.default_columns = dc ∧
      sh.inherit_formulas = fv := by
  have hcopy := copy_columns_eq parent.columns hnd
  have hne2 : parent.columns.isEmpty = false := by
    rw [← Bool.not_eq_true, List.isEmpty_iff]
    exact hne
  simp only [get_sheet_config, hHO, hn, hD, hDC, hIF, hsc, hcopy,
    get_config_with_default, hne2, Bool.false_eq_true, if_false]
  exact ⟨_, rfl, rfl, rfl, rfl, rfl⟩

/-- Claim C8 witness: all four explicit settings override the seeded ones
for a sheet resolved against a parent with a nonempty column map. -/
theorem c8_witness :
    ∃ sh, get_sheet_config
        (.vmap [(HEADER_OFFSET, .vint 3), (DELIMITER, .vstr ","),
                (DEFAULT_COLUMNS, .vbool true), (INHERIT_FORMULAS, .vbool true)])
        (some c8parent) [] = ([], .ok sh) ∧
      sh.header_offset = 3 ∧ sh.delimiter = .vstr "," ∧
      sh.default_columns = .vbool true ∧ sh.inherit_formulas = .vbool true := by
  obtain ⟨sh, h⟩ := c8_explicit_overrides
    (.vmap [(HEADER_OFFSET, .vint 3), (DELIMITER, .vstr ","),
            (DEFAULT_COLUMNS, .vbool true), (INHERIT_FORMULAS, .vbool true)])
    c8parent [] (.vint 3) (.vstr ",") (.vbool true) (.vbool true) 3
    rfl rfl rfl rfl rfl rfl (by simp [c8parent]) (by simp [c8parent])
  exact ⟨sh, h⟩

/-! ### Claim C4 -/

def c4spec : Val :=
  .vmap [(SOURCE, .vmap [(FROM, .vstr "x.y"), (DELIMITER, .vstr ";")])]

/-- Claim C4, counterexample: resolving the column
`{SOURCE: {FROM: "x.y", DELIMITER: ";"}}` with column-level delimiter `","`
leaves the resolved Column's `delimiter` at `","` — the nested source
delimiter `";"` is assigned to the dynamically created attribute
`delimiter2` instead — while `data` is indeed `"x.y"`. -/
theorem c4_counterexample :
    get_column_config none "A" {} c4spec (.vstr ",") [] =
      ([], .ok ({ data := some (.vstr "x.y"), delimiter := .vstr ",",
                  delimiter2 := some (.vstr ";") }, none)) ∧
    ("," : String) ≠ ";" :=
  ⟨rfl, by decide⟩

/-- Claim C4 as amended: for a structured column whose nested source
mapping has a `FROM` field and its own `DELIMITER`, the resolved Column
keeps the column-level delimiter in `delimiter`, stores the nested source
delimiter in the separate `delimiter2` attribute, and takes `data` from
the `FROM` value. -/
theorem c4_nested_delimiter_goes_to_delimiter2 (key : Option String)
    (column : String) (m msrc : List (String × Val)) (delimiter : Val)
    (errs : List String) (f d2 : Val)
    (hKey : dictFind m KEY = none)
    (hDel : dictFind m DELIMITER = none)
    (hSrc : dictFind m SOURCE = some (.vmap msrc))
    (hFrom : dictFind msrc FROM = some f)
    (hD2 : dictFind msrc DELIMITER = some d2) :
    ∃ col2, get_column_config key column {} (.vmap m) delimiter errs =
      (errs, .ok (col2, key)) ∧
      col2.delimiter = delimiter ∧ col2.delimiter2 = some d2 ∧
      col2.data = some f := by
  rcases hL : dictFind m LINK with _ | lv <;>
    rcases hO : dictFind m OPTIONAL with _ | ov <;>
      rcases hG : dictFind msrc GET with _ | gv <;>
        rcases hC : dictFind msrc CONDITION with _ | cv <;>
          rcases hL2 : dictFind msrc LINK with _ | l2v <;>
            rcases hO2 : dictFind msrc OPTIONAL with _ | o2v <;>
              (simp only [get_column_config, get_source_config, Val.find?, hKey,
                hDel, hSrc, hFrom, hD2, hL, hO, hG, hC, hL2, hO2,
                Option.isSome_none, Bool.false_eq_true, false_and, if_false];
               exact ⟨_, rfl, rfl, rfl, rfl⟩)

/-- Claim C4 witness: the amended theorem applied to the concrete
`{SOURCE: {FROM: "x.y", DELIMITER: ";"}}` column with column delimiter
`","`. -/
theorem c4_witness :
    ∃ col2, get_column_config none "A" {}
        (.vmap [(SOURCE, .vmap [(FROM, .vstr "x.y"), (DELIMITER, .vstr ";")])])
        (.vstr ",") [] = ([], .ok (col2, none)) ∧
      col2.delimiter = .vstr "," ∧ col2.delimiter2 = some (.vstr ";") ∧
      col2.data = some (.vstr "x.y") := by
  obtain ⟨col2, h⟩ := c4_nested_delimiter_goes_to_delimiter2 none "A"
    [(SOURCE, .vmap [(FROM, .vstr "x.y"), (DELIMITER, .vstr ";")])]
    [(FROM, .vstr "x.y"), (DELIMITER, .vstr ";")] (.vstr ",") []
    (.vstr "x.y") (.vstr ";") rfl rfl rfl rfl rfl
  exact ⟨col2, h⟩

/-! ### Claim C9 -/

/-- Claim C9, counterexample: a structured column specification with no
`SOURCE` entry (here `{LINK: "l"}`) does not complete normally:
`get_source_config` raises an uncaught `KeyError` for `SOURCE`. -/
theorem c9_counterexample :
    get_column_config none "A" {} (.vmap [(LINK, .vstr "l")]) (.vstr " ") [] =
      ([], .error (.keyError "SOURCE")) :=
  rfl

/-- Claim C9 as amended: every structured column specification (a mapping)
without a `SOURCE` entry makes column resolution terminate with an
uncaught `KeyError` for `SOURCE` (raised by the unconditional
`c_data[SOURCE]` in `get_source_config`) instead of completing with
`data` unset. -/
theorem c9_missing_source_keyerror (key : Option String) (column : String)
    (col : Column) (m : List (String × Val)) (delimiter : Val)
    (errs : List String) (hsrc : dictFind m SOURCE = none) :
    (get_column_config key column col (.vmap m) delimiter errs).2 =
      .error (.keyError SOURCE) := by
  simp only [get_column_config, get_source_config, Val.find?, hsrc]

/-- Claim C9 witness: the amended theorem applied to the concrete
`{LINK: "l"}` column specification. -/
theorem c9_witness :
    (get_column_config none "B" {} (.vmap [(LINK, .vstr "l")])
      (.vstr " ") []).2 = .error (.keyError SOURCE) :=
  c9_missing_source_keyerror none "B" {} [(LINK, .vstr "l")] (.vstr " ") [] rfl

/-! ### Claim C1 -/

/-- Claim C1, counterexample: a document whose `BUGZILLA` section is empty
(all three of domain, url, api key missing) records exactly ONE error (for
the domain, the first field checked) and terminates right there through the
`abortIfAnyError` guard inside `get_config`'s `KeyError` handler — not
three errors and not a continuation to the final batched abort. -/
theorem c1_counterexample :
    config_init (.vmap [(BUGZILLA, .vmap [])]) [] =
      ([CONFIG_FILE_MISSING_BUGZILLA_DOMAIN], .error .aborted) ∧
    [CONFIG_FILE_MISSING_BUGZILLA_DOMAIN].length = 1 ∧ (1 : Nat) ≠ 3 :=
  ⟨rfl, rfl, by decide⟩

/-- Claim C1 as amended: for every document selecting `BUGZILLA` whose
tracker section is missing at least one of the three required fields,
resolution records exactly one error — the one for the first missing field
in check order (domain, url, api key) — and terminates immediately via the
abort-if-any-error guard, never reaching the later field checks or the
final batched abort. -/
theorem c1_first_missing_bugzilla_field_aborts (doc : Val)
    (mbz : List (String × Val)) (msg : String)
    (hbz : doc.find? BUGZILLA = some (.vmap mbz))
    (hmiss : firstMissingBz (.vmap mbz) = some msg) :
    config_init doc [] = ([msg], .error .aborted) := by
  unfold firstMissingBz at hmiss
  rcases hD : dictFind mbz DOMAIN with _ | dv
  · simp only [Val.find?_vmap, hD, Option.isNone_none, if_true,
      Option.some.injEq] at hmiss
    subst hmiss
    simp [config_init, get_input, config_bugzilla, getItem, get_config, logError,
      checkError, Val.find?_vmap, hbz, hD]
  · rcases hU : dictFind mbz URL with _ | uv
    · simp only [Val.find?_vmap, hD, hU, Option.isNone_none, Option.isNone_some,
        Bool.false_eq_true, if_false, if_true, Option.some.injEq] at hmiss
      subst hmiss
      simp [config_init, get_input, config_bugzilla, getItem, get_config, logError,
        checkError, Val.find?_vmap, hbz, hD, hU]
    · rcases hA : dictFind mbz API_KEY with _ | av
      · simp only [Val.find?_vmap, hD, hU, hA, Option.isNone_none,
          Option.isNone_some, Bool.false_eq_true, if_false, if_true,
          Option.some.injEq] at hmiss
        subst hmiss
        simp [config_init, get_input, config_bugzilla, getItem, get_config,
          logError, checkError, Val.find?_vmap, hbz, hD, hU, hA]
      · simp [Val.find?_vmap, hD, hU, hA] at hmiss

/-- Claim C1 witness: a Bugzilla section with a domain but no url aborts
with exactly the missing-url error. -/
theorem c1_witness :
    config_init (.vmap [(BUGZILLA, .vmap [(DOMAIN, .vstr "d")])]) [] =
      ([CONFIG_FILE_MISSING_BUGZILLA_URL], .error .aborted) :=
  c1_first_missing_bugzilla_field_aborts
    (.vmap [(BUGZILLA, .vmap [(DOMAIN, .vstr "d")])])
    [(DOMAIN, .vstr "d")] CONFIG_FILE_MISSING_BUGZILLA_URL rfl rfl

/-! ### Claim C5 -/

/-- Claim C5, counterexample: a full document with `SPREADSHEET_ID: 123`
terminates immediately with a `log.fatal_error` (recorded-error list still
empty) instead of recording a non-fatal type error and walking the rest of
the document to the batched abort. -/
theorem c5_counterexample :
    config_init (.vmap [(JIRA, .vmap [(SERVER, .vstr "s"), (TOKEN, .vstr "t")]),
                        (SPREADSHEET_ID, .vint 123)]) [] =
      ([], .error (.fatal CONFIG_FILE_WRONG_SPREADSHEET)) ∧
    Exc.fatal CONFIG_FILE_WRONG_SPREADSHEET ≠ Exc.aborted :=
  ⟨rfl, by decide⟩

/-- Claim C5 as amended: a present but non-string spreadsheet id value is
not treated as valid, but it triggers `log.fatal_error` — immediate
termination with the wrong-spreadsheet message and no recorded non-fatal
error — rather than a recorded error reported at the batched abort. -/
theorem c5_nonstring_spreadsheet_id_fatal (doc v : Val) (errs : List String)
    (hsid : doc.find? SPREADSHEET_ID = some v)
    (hnotstr : isVstr v = false) :
    config_gsheet doc errs =
      (errs, .error (.fatal CONFIG_FILE_WRONG_SPREADSHEET)) := by
  simp [config_gsheet, get_config, hsid, hnotstr]

/-- Claim C5 witness: the amended theorem applied to a document with the
integer spreadsheet id `7`. -/
theorem c5_witness :
    config_gsheet (.vmap [(SPREADSHEET_ID, .vint 7)]) [] =
      ([], .error (.fatal CONFIG_FILE_WRONG_SPREADSHEET)) :=
  c5_nonstring_spreadsheet_id_fatal (.vmap [(SPREADSHEET_ID, .vint 7)])
    (.vint 7) [] rfl rfl

/-! ### Claim C6 -/

def c6doc : Val :=
  .vmap [(BUGZILLA, .vmap [(DOMAIN, .vstr "d"), (URL, .vstr "u"),
                           (API_KEY, .vstr "k")]),
         (JIRA, .vmap [(SERVER, .vstr "s"), (TOKEN, .vstr "t")]),
         (SPREADSHEET_ID, .vstr "sid"),
         (SHEETS, .vseq [.vmap [(NAME, .vstr "n"), (QUERY, .vstr "q"),
                                (SHEET_COLUMNS,
                                 .vmap [("A", .vmap [(KEY, .vbool true),
                                                     (SOURCE, .vstr "x")])])]])]

def c6expected : ConfigResult :=
  { source := some BUGZILLA,
    bugzilla := some (.vstr "d", .vstr "u", .vstr "k"),
    jira := none,
    gsheet :=
      { spreadsheet_id := .vstr "sid",
        sheets := some ["n"],
        sheet := some [("n",
          { header_offset := 0, delimiter := .vstr " ",
            default_columns := .vbool false, inherit_formulas := .vbool false,
            columns := [("A", { data := some (.vstr "x"),
                                delimiter := .vstr " " })],
            key := some "A" })],
        queries := some [("n", .vstr "q")] } }

/-- Claim C6, counterexample: a well-formed document declaring BOTH tracker
keys resolves completely with ZERO recorded errors (Bugzilla silently
wins), not with exactly one "unknown/missing input" error as the claim
states. -/
theorem c6_counterexample :
    config_init c6doc [] = ([], .ok c6expected) ∧
    (c6doc.find? BUGZILLA).isSome = true ∧ (c6doc.find? JIRA).isSome = true ∧
    ([] : List String).length = 0 ∧ (0 : Nat) ≠ 1 :=
  ⟨rfl, rfl, rfl, rfl, by decide⟩

/-- Claim C6 as amended: a document declaring the `BUGZILLA` key (even
together with `JIRA`) selects Bugzilla with NO recorded input error, while
a document declaring neither key records exactly one missing-input error
and immediately aborts through the guard in `get_input`'s `KeyError`
handler (rather than continuing to the batched abort). -/
theorem c6_tracker_selection (doc : Val) (errs : List String) :
    ((doc.find? BUGZILLA).isSome = true →
      get_input doc CONFIG_FILE_MISSING_INPUT errs = (errs, .ok (some BUGZILLA))) ∧
    (doc.find? BUGZILLA = none → doc.find? JIRA = none →
      get_input doc CONFIG_FILE_MISSING_INPUT errs =
        (errs ++ [CONFIG_FILE_MISSING_INPUT], .error .aborted)) := by
  constructor
  · intro h
    simp [get_input, h]
  · intro h1 h2
    have hne : (errs ++ [CONFIG_FILE_MISSING_INPUT]).isEmpty = false := by
      rw [← Bool.not_eq_true, List.isEmpty_iff]
      simp
    simp [get_input, h1, h2, logError, checkError, hne]

/-- Claim C6 witness: both branches of the amended theorem at concrete
documents — both trackers declared (no error), and neither declared (one
error then abort). -/
theorem c6_witness :
    get_input (.vmap [(BUGZILLA, .vnull), (JIRA, .vnull)])
      CONFIG_FILE_MISSING_INPUT [] = ([], .ok (some BUGZILLA)) ∧
    get_input (.vmap []) CONFIG_FILE_MISSING_INPUT [] =
      ([CONFIG_FILE_MISSING_INPUT], .error .aborted) :=
  ⟨(c6_tracker_selection (.vmap [(BUGZILLA, .vnull), (JIRA, .vnull)]) []).1 rfl,
   (c6_tracker_selection (.vmap []) []).2 rfl rfl⟩

/-! ### Claim C10 -/

/-- The missing-key diagnostic recorded for a named sheet. -/
def missingKeyMsg (nm : String) : String :=
  CONFIG_FILE_MISSING_KEY ++ " (" ++ SHEET ++ ": " ++ nm ++ ")"

/-- A minimal well-formed sheet entry: a name and a query, nothing else. -/
def c10entry (nm : String) (q : Val) : Val :=
  .vmap [(NAME, .vstr nm), (QUERY, q)]

/-- One pass of the sheets loop over a minimal well-formed entry, under a
spreadsheet-defaults parent with empty columns and no key: the entry
resolves, and exactly its missing-key diagnostic is recorded. -/
theorem c10_entry_step (ho : Int) (d dc fv : Val) (nm : String) (q : Val)
    (rest : List Val) (sheets : List String) (maps : List (String × Sheet))
    (queries : List (String × Val)) (errs : List String) :
    sheets_loop ⟨ho, d, dc, fv, [], none⟩ (c10entry nm q :: rest)
        sheets maps queries errs =
      sheets_loop ⟨ho, d, dc, fv, [], none⟩ rest (sheets ++ [nm])
        (dictInsert maps nm ⟨ho, d, dc, fv, [], none⟩) (dictInsert queries nm q)
        (errs ++ [missingKeyMsg nm]) := rfl

/-- Reaching a sheet entry without a `NAME` field raises `KeyError`
immediately, leaving the recorded errors untouched. -/
theorem c10_bad_step (sp : Sheet) (mbad : List (String × Val))
    (hname : dictFind mbad NAME = none) (rest : List Val) (s : List String)
    (m : List (String × Sheet)) (q : List (String × Val)) (errs : List String) :
    sheets_loop sp (.vmap mbad :: rest) s m q errs =
      (errs, .error (.keyError NAME)) := by
  simp only [sheets_loop, Val.find?_vmap, hname]

/-- Processing a prefix of minimal well-formed entries accumulates exactly
their missing-key diagnostics and continues with the remaining entries. -/
theorem c10_pre (ho : Int) (d dc fv : Val) (pre : List (String × Val)) :
    ∀ (rest : List Val) (sheets : List String) (maps : List (String × Sheet))
      (queries : List (String × Val)) (errs : List String),
      ∃ s2 m2 q2,
        sheets_loop ⟨ho, d, dc, fv, [], none⟩
            ((pre.map fun p => c10entry p.1 p.2) ++ rest) sheets maps queries errs =
          sheets_loop ⟨ho, d, dc, fv, [], none⟩ rest s2 m2 q2
            (errs ++ pre.map fun p => missingKeyMsg p.1) := by
  induction pre with
  | nil =>
    intro rest sheets maps queries errs
    exact ⟨sheets, maps, queries, by simp⟩
  | cons p ptl ih =>
    intro rest sheets maps queries errs
    obtain ⟨s2, m2, q2, hih⟩ := ih rest (sheets ++ [p.1])
      (dictInsert maps p.1 ⟨ho, d, dc, fv, [], none⟩)
      (dictInsert queries p.1 p.2) (errs ++ [missingKeyMsg p.1])
    refine ⟨s2, m2, q2, ?_⟩
    rw [List.map_cons, List.cons_append, c10_entry_step, hih]
    simp [List.append_assoc]

/-- Claim C10 (confirmed): in a document whose `SHEETS` sequence contains a
mapping entry omitting `NAME` (preceded by well-formed minimal entries),
resolution terminates with an uncaught `KeyError` for `NAME` raised while
reading that entry's name: the exception outcome is `keyError`, not the
batched abort, and the recorded errors at termination are exactly the
diagnostics of the *earlier* entries — none for the offending entry. -/
theorem c10_missing_name_keyerror (doc : Val) (sid : String)
    (pre : List (String × Val)) (mbad : List (String × Val)) (post : List Val)
    (errs : List String)
    (hsid : doc.find? SPREADSHEET_ID = some (.vstr sid))
    (hho : doc.find? HEADER_OFFSET = none)
    (hsc : doc.find? SHEET_COLUMNS = none)
    (hsheets : doc.find? SHEETS =
      some (.vseq ((pre.map fun p => c10entry p.1 p.2) ++ .vmap mbad :: post)))
    (hname : dictFind mbad NAME = none) :
    config_gsheet doc errs =
      ((errs ++ pre.map fun p => missingKeyMsg p.1), .error (.keyError NAME)) := by
  obtain ⟨s2, m2, q2, hpre⟩ := c10_pre DEFAULT_HEADER_OFFSET
    (get_config_with_default doc DELIMITER (.vstr DEFAULT_DELIMITER))
    (get_config_with_default doc DEFAULT_COLUMNS (.vbool INIT_DEFAULT_COLUMNS))
    (get_config_with_default doc INHERIT_FORMULAS (.vbool INIT_INHERIT_FORMULAS))
    pre (.vmap mbad :: post) [] [] [] errs
  simp only [config_gsheet, get_config, get_sheet_config, hsid, hho, hsc, hsheets,
    Option.isNone_some, Bool.false_eq_true, if_false, isVstr, Bool.not_true]
  rw [hpre, c10_bad_step _ mbad hname]

def c10doc : Val :=
  .vmap [(SPREADSHEET_ID, .vstr "sid"),
         (SHEETS, .vseq [c10entry "a" (.vstr "q"), .vmap [(QUERY, .vstr "q2")]])]

/-- Claim C10 witness: a document whose second sheet entry has a query but
no name crashes with `KeyError` for `NAME`, carrying only the first
entry's missing-key diagnostic. -/
theorem c10_witness :
    config_gsheet c10doc [] = ([missingKeyMsg "a"], .error (.keyError NAME)) :=
  c10_missing_name_keyerror c10doc "sid" [("a", .vstr "q")]
    [(QUERY, .vstr "q2")] [] [] rfl rfl rfl rfl rfl

end Gd2gs
